import Mathlib

/-!
# Workflow backend: configuration loader and route composer

A shallow embedding of the Go sources

* `internal/infrastructure/config/config.go` (`Config`, `Load`, `getEnv`),
* `internal/delivery/http/handlers/{health,task,repository}.go`,
* `internal/delivery/http/routes/routes.go` (`SetupRoutes`),
* `cmd/server/main.go` (the port that `main` binds),

followed by the properties of the specification that are stated about them.
-/

set_option autoImplicit false

namespace Workflow

/-! ## Process environment -/

/-- The process environment: `none` for a variable that is not set. -/
abbrev Env := String → Option String

/-- The environment in which no variable is set. -/
def emptyEnv : Env := fun _ => none

/-- Go's `os.Getenv`: the value of the variable, `""` when it is not set. -/
def Getenv (env : Env) (key : String) : String :=
  match env key with
  | some value => value
  | none => ""

/-- Go's `os.Setenv`. -/
def Setenv (env : Env) (key value : String) : Env :=
  fun k => if k = key then some value else env k

/-- The parsed content of a `.env` file; `none` when the file is missing or unreadable. -/
abbrev DotenvFile := Option (List (String × String))

/-- The `.env` step, `godotenv.Load()`: every variable of the file that is not already set
in the environment (as it was when the step started) is set; a missing file changes nothing
(the error is only logged by `Load`). -/
def godotenvLoad (env : Env) (file : DotenvFile) : Env :=
  match file with
  | none => env
  | some envMap =>
    envMap.foldl (fun e kv => if (env kv.1).isSome then e else Setenv e kv.1 kv.2) env

namespace config

/-- ServerConfig holds server configuration. -/
structure ServerConfig where
  Port : String
  Host : String
  deriving DecidableEq, Repr

/-- DatabaseConfig holds database configuration. -/
structure DatabaseConfig where
  Host : String
  Port : String
  User : String
  Password : String
  Name : String
  Charset : String
  deriving DecidableEq, Repr

/-- GitHubConfig holds GitHub configuration. -/
structure GitHubConfig where
  Token : String
  WebhookURL : String
  deriving DecidableEq, Repr

/-- Config holds all configuration for the application. -/
structure Config where
  Server : ServerConfig
  Database : DatabaseConfig
  GitHub : GitHubConfig
  deriving DecidableEq, Repr

/-- The function `getEnv` gets an environment variable with fallback. -/
def getEnv (env : Env) (key defaultValue : String) : String :=
  let value := Getenv env key
  if value ≠ "" then value else defaultValue

/-- The function `Load`: the `.env` step, then one `getEnv` per field. The second component
is the process environment that the call leaves behind. -/
def Load (env : Env) (file : DotenvFile) : Config × Env :=
  let env1 := godotenvLoad env file
  ({ Server := {
       Port := getEnv env1 "SERVER_PORT" "8080",
       Host := getEnv env1 "SERVER_HOST" "localhost" },
     Database := {
       Host := getEnv env1 "DB_HOST" "localhost",
       Port := getEnv env1 "DB_PORT" "3306",
       User := getEnv env1 "DB_USER" "root",
       Password := getEnv env1 "DB_PASSWORD" "",
       Name := getEnv env1 "DB_NAME" "workflow",
       Charset := getEnv env1 "DB_CHARSET" "utf8mb4" },
     GitHub := {
       Token := getEnv env1 "GITHUB_TOKEN" "",
       WebhookURL := getEnv env1 "GITHUB_WEBHOOK_URL" "" } },
   env1)

/-- The ten string fields of `Config`, used to state per-field properties. -/
inductive Field where
  | ServerPort | ServerHost
  | DatabaseHost | DatabasePort | DatabaseUser | DatabasePassword | DatabaseName
  | DatabaseCharset
  | GitHubToken | GitHubWebhookURL
  deriving DecidableEq, Repr

/-- Projection of a `Config` on one of its fields. -/
def Config.get (cfg : Config) : Field → String
  | .ServerPort => cfg.Server.Port
  | .ServerHost => cfg.Server.Host
  | .DatabaseHost => cfg.Database.Host
  | .DatabasePort => cfg.Database.Port
  | .DatabaseUser => cfg.Database.User
  | .DatabasePassword => cfg.Database.Password
  | .DatabaseName => cfg.Database.Name
  | .DatabaseCharset => cfg.Database.Charset
  | .GitHubToken => cfg.GitHub.Token
  | .GitHubWebhookURL => cfg.GitHub.WebhookURL

/-- The environment variable that `Load` reads for a field. -/
def Field.var : Field → String
  | .ServerPort => "SERVER_PORT"
  | .ServerHost => "SERVER_HOST"
  | .DatabaseHost => "DB_HOST"
  | .DatabasePort => "DB_PORT"
  | .DatabaseUser => "DB_USER"
  | .DatabasePassword => "DB_PASSWORD"
  | .DatabaseName => "DB_NAME"
  | .DatabaseCharset => "DB_CHARSET"
  | .GitHubToken => "GITHUB_TOKEN"
  | .GitHubWebhookURL => "GITHUB_WEBHOOK_URL"

/-- The fixed default that `Load` passes to `getEnv` for a field. -/
def Field.default : Field → String
  | .ServerPort => "8080"
  | .ServerHost => "localhost"
  | .DatabaseHost => "localhost"
  | .DatabasePort => "3306"
  | .DatabaseUser => "root"
  | .DatabasePassword => ""
  | .DatabaseName => "workflow"
  | .DatabaseCharset => "utf8mb4"
  | .GitHubToken => ""
  | .GitHubWebhookURL => ""

end config

/-! ## HTTP layer: values exchanged with the web framework -/

/-- JSON values, the payload that a handler hands to `c.JSON`. An object keeps its members
in the order in which the source writes them. -/
inductive JSON where
  | null
  | bool (b : Bool)
  | num (n : Int)
  | str (s : String)
  | arr (items : List JSON)
  | obj (members : List (String × JSON))

/-- The member of a JSON object stored under `key`, if there is one. -/
def JSON.get? (j : JSON) (key : String) : Option JSON :=
  match j with
  | .obj members => members.lookup key
  | _ => none

/-- Whether a JSON value is an object that has a member called `key`. -/
def JSON.hasField (j : JSON) (key : String) : Bool :=
  (j.get? key).isSome

/-- A string-valued member with the struct tag `omitempty`: left out when empty. -/
def omitemptyStr (key value : String) : List (String × JSON) :=
  if value = "" then [] else [(key, JSON.str value)]

/-- The constants of `net/http` that the handlers use. -/
def StatusOK : Nat := 200

/-- The constant `http.StatusCreated`. -/
def StatusCreated : Nat := 201

/-- The constant `http.StatusBadRequest`. -/
def StatusBadRequest : Nat := 400

/-- What `c.JSON(code, body)` writes: a status code and a JSON body. -/
structure Response where
  code : Nat
  body : JSON

/-- The error value built by `echo.NewHTTPError(code, message)`. -/
structure HTTPError where
  code : Nat
  message : String
  deriving DecidableEq, Repr

/-- The parts of the Go runtime and of the clock that `HealthCheck` reads. -/
structure Runtime where
  Now : String
  Version : String
  NumGoroutine : Int
  Alloc : Nat
  TotalAlloc : Nat
  Sys : Nat
  NumGC : Nat

namespace handlers

/-- Task represents a task entity for API responses. -/
structure Task where
  ID : String
  Title : String
  Description : String
  Status : String
  Repository : String
  Epic : String
  Branch : String := ""
  CreatedAt : String
  UpdatedAt : String
  StartedAt : String := ""
  CompletedAt : String := ""
  TokensUsed : Int
  Metadata : List (String × String) := []

/-- Repository represents a repository entity for API responses. -/
structure Repository where
  ID : Int
  Name : String
  FullName : String
  Description : String := ""
  Private : Bool
  Language : String := ""
  URL : String
  HTMLURL : String
  CloneURL : String
  Stars : Int
  Forks : Int
  IsConnected : Bool
  LastSync : String := ""
  CreatedAt : String
  UpdatedAt : String
  Topics : List String := []

/-- JSON encoding of a `Task`, following its struct tags. -/
def Task.toJSON (t : Task) : JSON :=
  .obj ([("id", .str t.ID),
         ("title", .str t.Title),
         ("description", .str t.Description),
         ("status", .str t.Status),
         ("repository", .str t.Repository),
         ("epic", .str t.Epic)]
        ++ omitemptyStr "branch" t.Branch
        ++ [("created_at", .str t.CreatedAt),
            ("updated_at", .str t.UpdatedAt)]
        ++ omitemptyStr "started_at" t.StartedAt
        ++ omitemptyStr "completed_at" t.CompletedAt
        ++ [("tokens_used", .num t.TokensUsed)]
        ++ (if t.Metadata.isEmpty then []
            else [("metadata", .obj (t.Metadata.map fun kv => (kv.1, JSON.str kv.2)))]))

/-- JSON encoding of a `Repository`, following its struct tags. -/
def Repository.toJSON (r : Repository) : JSON :=
  .obj ([("id", .num r.ID),
         ("name", .str r.Name),
         ("full_name", .str r.FullName)]
        ++ omitemptyStr "description" r.Description
        ++ [("private", .bool r.Private)]
        ++ omitemptyStr "language" r.Language
        ++ [("url", .str r.URL),
            ("html_url", .str r.HTMLURL),
            ("clone_url", .str r.CloneURL),
            ("stars", .num r.Stars),
            ("forks", .num r.Forks),
            ("is_connected", .bool r.IsConnected)]
        ++ omitemptyStr "last_sync" r.LastSync
        ++ [("created_at", .str r.CreatedAt),
            ("updated_at", .str r.UpdatedAt)]
        ++ (if r.Topics.isEmpty then [] else [("topics", .arr (r.Topics.map JSON.str))]))

end handlers

/-- The request as a handler sees it through `echo.Context`: the path parameters
(`c.Param`, `""` for a parameter the route does not have) and the outcome of the structural
decode of the request (`c.Bind(&req)`) for each of the two target types. The decode itself
belongs to the web framework. -/
structure Context where
  Param : String → String
  BindTask : Except String handlers.Task
  BindRepository : Except String handlers.Repository

/-- The signature of a handler: `echo.HandlerFunc`, with the runtime state made explicit. -/
abbrev HandlerFunc := Runtime → Context → Except HTTPError Response

namespace handlers

/-- HealthHandler handles health check endpoints. -/
structure HealthHandler where

/-- TaskHandler handles task-related endpoints. -/
structure TaskHandler where

/-- RepositoryHandler handles repository-related endpoints. -/
structure RepositoryHandler where

/-- NewHealthHandler creates a new HealthHandler. -/
def NewHealthHandler : HealthHandler := {}

/-- NewTaskHandler creates a new TaskHandler. -/
def NewTaskHandler : TaskHandler := {}

/-- NewRepositoryHandler creates a new RepositoryHandler. -/
def NewRepositoryHandler : RepositoryHandler := {}

/-- The function `bToMb` converts bytes to megabytes. -/
def bToMb (b : Nat) : Nat :=
  b / 1024 / 1024

/-- HealthCheck returns the health status of the application. -/
def HealthHandler.HealthCheck (_h : HealthHandler) (rt : Runtime) (_c : Context) :
    Except HTTPError Response :=
  let response : JSON := .obj [
    ("status", .str "OK"),
    ("timestamp", .str rt.Now),
    ("service", .str "workflow-backend"),
    ("version", .str "1.0.0"),
    ("system", .obj [
      ("go_version", .str rt.Version),
      ("goroutines", .num rt.NumGoroutine),
      ("memory_alloc_mb", .num (bToMb rt.Alloc)),
      ("memory_total_mb", .num (bToMb rt.TotalAlloc)),
      ("memory_sys_mb", .num (bToMb rt.Sys)),
      ("gc_runs", .num rt.NumGC)]),
    ("checks", .obj [
      ("database", .obj [
        ("status", .str "OK"),
        ("message", .str "Database connection healthy")]),
      ("github_api", .obj [
        ("status", .str "OK"),
        ("message", .str "GitHub API accessible")])])]
  .ok { code := StatusOK, body := response }

/-- GetTasks returns all tasks. -/
def TaskHandler.GetTasks (_h : TaskHandler) (_c : Context) : Except HTTPError Response :=
  let tasks : List Task := [
    { ID := "task-1",
      Title := "Implement user authentication",
      Description := "Add JWT-based authentication to the API",
      Status := "in_progress",
      Repository := "workflow",
      Epic := "authentication",
      Branch := "feature/auth",
      CreatedAt := "2024-01-15T10:00:00Z",
      UpdatedAt := "2024-01-15T14:30:00Z",
      StartedAt := "2024-01-15T11:00:00Z",
      TokensUsed := 1500 },
    { ID := "task-2",
      Title := "Setup database migrations",
      Description := "Create initial database schema and migration system",
      Status := "completed",
      Repository := "workflow",
      Epic := "infrastructure",
      Branch := "feature/db-setup",
      CreatedAt := "2024-01-14T09:00:00Z",
      UpdatedAt := "2024-01-15T16:00:00Z",
      StartedAt := "2024-01-14T10:00:00Z",
      CompletedAt := "2024-01-15T16:00:00Z",
      TokensUsed := 2300 }]
  .ok { code := StatusOK,
        body := .obj [
          ("tasks", .arr (tasks.map Task.toJSON)),
          ("total", .num tasks.length),
          ("status", .str "success")] }

/-- GetTask returns a single task by ID. -/
def TaskHandler.GetTask (_h : TaskHandler) (c : Context) : Except HTTPError Response :=
  let taskID := c.Param "id"
  let task : Task :=
    { ID := taskID,
      Title := "Sample Task",
      Description := "This is a sample task for testing",
      Status := "pending",
      Repository := "workflow",
      Epic := "development",
      CreatedAt := "2024-01-15T10:00:00Z",
      UpdatedAt := "2024-01-15T10:00:00Z",
      TokensUsed := 0 }
  .ok { code := StatusOK,
        body := .obj [
          ("task", task.toJSON),
          ("status", .str "success")] }

/-- CreateTask creates a new task. -/
def TaskHandler.CreateTask (_h : TaskHandler) (c : Context) : Except HTTPError Response :=
  match c.BindTask with
  | .error _ => .error { code := StatusBadRequest, message := "Invalid request body" }
  | .ok _req =>
    .ok { code := StatusCreated,
          body := .obj [
            ("message", .str "Task created successfully"),
            ("task_id", .str "new-task-123"),
            ("status", .str "success")] }

/-- UpdateTask updates an existing task. -/
def TaskHandler.UpdateTask (_h : TaskHandler) (c : Context) : Except HTTPError Response :=
  let taskID := c.Param "id"
  match c.BindTask with
  | .error _ => .error { code := StatusBadRequest, message := "Invalid request body" }
  | .ok _req =>
    .ok { code := StatusOK,
          body := .obj [
            ("message", .str "Task updated successfully"),
            ("task_id", .str taskID),
            ("status", .str "success")] }

/-- DeleteTask deletes a task. -/
def TaskHandler.DeleteTask (_h : TaskHandler) (c : Context) : Except HTTPError Response :=
  let taskID := c.Param "id"
  .ok { code := StatusOK,
        body := .obj [
          ("message", .str "Task deleted successfully"),
          ("task_id", .str taskID),
          ("status", .str "success")] }

/-- GetRepositories returns all repositories. -/
def RepositoryHandler.GetRepositories (_h : RepositoryHandler) (_c : Context) :
    Except HTTPError Response :=
  let repositories : List Repository := [
    { ID := 1,
      Name := "workflow",
      FullName := "JokerTrickster/workflow",
      Description := "AI-powered workflow management system",
      Private := false,
      Language := "TypeScript",
      URL := "https://api.github.com/repos/JokerTrickster/workflow",
      HTMLURL := "https://github.com/JokerTrickster/workflow",
      CloneURL := "https://github.com/JokerTrickster/workflow.git",
      Stars := 15,
      Forks := 3,
      IsConnected := true,
      LastSync := "2024-01-15T14:30:00Z",
      CreatedAt := "2024-01-10T10:00:00Z",
      UpdatedAt := "2024-01-15T14:30:00Z",
      Topics := ["workflow", "ai", "automation"] },
    { ID := 2,
      Name := "backend-api",
      FullName := "JokerTrickster/backend-api",
      Description := "Backend API for workflow management",
      Private := true,
      Language := "Go",
      URL := "https://api.github.com/repos/JokerTrickster/backend-api",
      HTMLURL := "https://github.com/JokerTrickster/backend-api",
      CloneURL := "https://github.com/JokerTrickster/backend-api.git",
      Stars := 8,
      Forks := 1,
      IsConnected := false,
      CreatedAt := "2024-01-12T15:00:00Z",
      UpdatedAt := "2024-01-14T09:00:00Z",
      Topics := ["api", "golang", "backend"] }]
  .ok { code := StatusOK,
        body := .obj [
          ("repositories", .arr (repositories.map Repository.toJSON)),
          ("total", .num repositories.length),
          ("status", .str "success")] }

/-- GetRepository returns a single repository by ID. -/
def RepositoryHandler.GetRepository (_h : RepositoryHandler) (c : Context) :
    Except HTTPError Response :=
  let repoID := c.Param "id"
  let repository : Repository :=
    { ID := 1,
      Name := "workflow",
      FullName := "JokerTrickster/workflow",
      Description := "AI-powered workflow management system",
      Private := false,
      Language := "TypeScript",
      URL := "https://api.github.com/repos/JokerTrickster/workflow",
      HTMLURL := "https://github.com/JokerTrickster/workflow",
      CloneURL := "https://github.com/JokerTrickster/workflow.git",
      Stars := 15,
      Forks := 3,
      IsConnected := true,
      LastSync := "2024-01-15T14:30:00Z",
      CreatedAt := "2024-01-10T10:00:00Z",
      UpdatedAt := "2024-01-15T14:30:00Z",
      Topics := ["workflow", "ai", "automation"] }
  .ok { code := StatusOK,
        body := .obj [
          ("repository", repository.toJSON),
          ("repo_id", .str repoID),
          ("status", .str "success")] }

/-- CreateRepository creates a new repository connection. -/
def RepositoryHandler.CreateRepository (_h : RepositoryHandler) (c : Context) :
    Except HTTPError Response :=
  match c.BindRepository with
  | .error _ => .error { code := StatusBadRequest, message := "Invalid request body" }
  | .ok _req =>
    .ok { code := StatusCreated,
          body := .obj [
            ("message", .str "Repository connected successfully"),
            ("repository_id", .num 123),
            ("status", .str "success")] }

/-- UpdateRepository updates an existing repository. -/
def RepositoryHandler.UpdateRepository (_h : RepositoryHandler) (c : Context) :
    Except HTTPError Response :=
  let repoID := c.Param "id"
  match c.BindRepository with
  | .error _ => .error { code := StatusBadRequest, message := "Invalid request body" }
  | .ok _req =>
    .ok { code := StatusOK,
          body := .obj [
            ("message", .str "Repository updated successfully"),
            ("repository_id", .str repoID),
            ("status", .str "success")] }

/-- DeleteRepository disconnects a repository. -/
def RepositoryHandler.DeleteRepository (_h : RepositoryHandler) (c : Context) :
    Except HTTPError Response :=
  let repoID := c.Param "id"
  .ok { code := StatusOK,
        body := .obj [
          ("message", .str "Repository disconnected successfully"),
          ("repository_id", .str repoID),
          ("status", .str "success")] }

end handlers

namespace routes

/-- One binding of the router: method, full path and handler. -/
structure Route where
  method : String
  path : String
  handler : HandlerFunc

/-- A route group (`Group(base)`): the path below which its bindings are registered. -/
structure Group where
  base : String

/-- Opening a sub-group appends its own base path to that of the enclosing group. -/
def Group.Sub (g : Group) (base : String) : Group :=
  { base := g.base ++ base }

/-- Binding a handler to a method and a path of the group. -/
def Group.Add (g : Group) (method path : String) (h : HandlerFunc) : Route :=
  { method := method, path := g.base ++ path, handler := h }

/-- SetupRoutes configures all the routes for the application: the bindings it adds to the
router, in the order of registration. -/
def SetupRoutes : List Route :=
  let healthHandler := handlers.NewHealthHandler
  let taskHandler := handlers.NewTaskHandler
  let repositoryHandler := handlers.NewRepositoryHandler
  let v1 : Group := { base := "/api/v1" }
  let taskGroup := v1.Sub "/tasks"
  let repoGroup := v1.Sub "/repositories"
  let githubGroup := v1.Sub "/github"
  let workflowGroup := v1.Sub "/workflows"
  [ v1.Add "GET" "/health" (fun rt c => healthHandler.HealthCheck rt c),
    v1.Add "GET" "/ping" (fun _ _ =>
      .ok { code := StatusOK,
            body := .obj [("message", .str "pong"), ("status", .str "OK")] }),
    taskGroup.Add "GET" "" (fun _ c => taskHandler.GetTasks c),
    taskGroup.Add "GET" "/:id" (fun _ c => taskHandler.GetTask c),
    taskGroup.Add "POST" "" (fun _ c => taskHandler.CreateTask c),
    taskGroup.Add "PUT" "/:id" (fun _ c => taskHandler.UpdateTask c),
    taskGroup.Add "DELETE" "/:id" (fun _ c => taskHandler.DeleteTask c),
    repoGroup.Add "GET" "" (fun _ c => repositoryHandler.GetRepositories c),
    repoGroup.Add "GET" "/:id" (fun _ c => repositoryHandler.GetRepository c),
    repoGroup.Add "POST" "" (fun _ c => repositoryHandler.CreateRepository c),
    repoGroup.Add "PUT" "/:id" (fun _ c => repositoryHandler.UpdateRepository c),
    repoGroup.Add "DELETE" "/:id" (fun _ c => repositoryHandler.DeleteRepository c),
    githubGroup.Add "POST" "/webhook" (fun _ _ =>
      .ok { code := StatusOK,
            body := .obj [("message", .str "GitHub webhook received"),
                          ("status", .str "OK")] }),
    githubGroup.Add "GET" "/repos" (fun _ _ =>
      .ok { code := StatusOK,
            body := .obj [("message", .str "GitHub repositories"), ("repos", .arr [])] }),
    workflowGroup.Add "GET" "" (fun _ _ =>
      .ok { code := StatusOK,
            body := .obj [("message", .str "Workflows list"), ("workflows", .arr [])] }),
    workflowGroup.Add "POST" "" (fun _ _ =>
      .ok { code := StatusCreated,
            body := .obj [("message", .str "Workflow created"), ("status", .str "OK")] }) ]

/-- The handler that the route table binds to a method and a path, if any. -/
def lookup (method path : String) : Option HandlerFunc :=
  (SetupRoutes.find? fun r => r.method == method && r.path == path).map (·.handler)

end routes

/-! ## Server entry point (cmd/server/main.go) -/

namespace server

/-- The part of `main` that decides where the server listens: `config.Load()`, then
`os.Getenv("PORT")` read in the environment that `Load` leaves, with `cfg.Server.Port` as
the fallback when it is empty. The first component is `port`, the second the address
handed to `e.Start`. -/
def main (env : Env) (file : DotenvFile) : String × String :=
  let loaded := config.Load env file
  let cfg := loaded.1
  let port := Getenv loaded.2 "PORT"
  let port := if port = "" then cfg.Server.Port else port
  (port, ":" ++ port)

end server

/-! ## Vocabulary of the properties -/

/-- Whether the result of a handler is a response with a 2xx status. -/
def succeeds2xx (r : Except HTTPError Response) : Bool :=
  match r with
  | .ok resp => decide (200 ≤ resp.code) && decide (resp.code < 300)
  | .error _ => false

/-- Whether a structural decode failed. -/
def bindFailed {α : Type} (r : Except String α) : Bool :=
  match r with
  | .ok _ => false
  | .error _ => true

/-- The members under which the handlers return their mock data. -/
def mockDataKeys : List String :=
  ["tasks", "task", "repositories", "repository", "repos", "workflows", "checks"]

/-- Whether a response body carries mock data or an acknowledgement message. -/
def hasPayload (body : JSON) : Bool :=
  body.hasField "message" || mockDataKeys.any fun k => body.hasField k

namespace routes

/-- The target of the structural decode that a handler performs, if it performs one. -/
inductive Decode where
  | nothing
  | task
  | repository
  deriving DecidableEq, Repr

/-- Which bindings of `SetupRoutes` call `c.Bind`, and on which type: `CreateTask` and
`UpdateTask` decode a `Task`, `CreateRepository` and `UpdateRepository` a `Repository`,
the other handlers decode nothing. -/
def decodes (method path : String) : Decode :=
  if (method = "POST" ∧ path = "/api/v1/tasks") ∨
      (method = "PUT" ∧ path = "/api/v1/tasks/:id") then .task
  else if (method = "POST" ∧ path = "/api/v1/repositories") ∨
      (method = "PUT" ∧ path = "/api/v1/repositories/:id") then .repository
  else .nothing

/-- Whether the handler of a binding decodes the request and that decode fails. -/
def decodeFails (r : Route) (c : Context) : Bool :=
  match decodes r.method r.path with
  | .nothing => false
  | .task => bindFailed c.BindTask
  | .repository => bindFailed c.BindRepository

/-- The two list placeholders whose envelope has no `status` member. -/
def statusless (r : Route) : Bool :=
  r.method == "GET" && (r.path == "/api/v1/github/repos" || r.path == "/api/v1/workflows")

end routes

/-! ## Sample inputs -/

/-- A runtime state. -/
def sampleRuntime : Runtime :=
  { Now := "2024-01-15T10:00:00Z", Version := "go1.21.0", NumGoroutine := 7,
    Alloc := 3145728, TotalAlloc := 10485760, Sys := 20971520, NumGC := 4 }

/-- A decoded task. -/
def sampleTask : handlers.Task :=
  { ID := "t", Title := "T", Description := "", Status := "pending", Repository := "workflow",
    Epic := "", CreatedAt := "", UpdatedAt := "", TokensUsed := 0 }

/-- A decoded repository. -/
def sampleRepository : handlers.Repository :=
  { ID := 7, Name := "r", FullName := "o/r", Private := false, URL := "", HTMLURL := "",
    CloneURL := "", Stars := 0, Forks := 0, IsConnected := false, CreatedAt := "",
    UpdatedAt := "" }

/-- A request whose body decodes, with path parameter `id = "42"`. -/
def goodContext : Context :=
  { Param := fun name => if name = "id" then "42" else "",
    BindTask := .ok sampleTask,
    BindRepository := .ok sampleRepository }

/-- A request whose body does not decode. -/
def badContext : Context :=
  { Param := fun name => if name = "id" then "42" else "",
    BindTask := .error "invalid character",
    BindRepository := .error "invalid character" }

/-! ## Properties of the configuration loader -/

namespace config

theorem Getenv_Setenv_same (env : Env) (key value : String) :
    Getenv (Setenv env key value) key = value := by
  simp [Getenv, Setenv]

theorem Getenv_Setenv_other (env : Env) (key value k : String) (hk : k ≠ key) :
    Getenv (Setenv env key value) k = Getenv env k := by
  simp [Getenv, Setenv, hk]

theorem getEnv_eq_ite (env : Env) (key d : String) :
    getEnv env key d = if Getenv env key = "" then d else Getenv env key := by
  unfold getEnv
  by_cases h : Getenv env key = "" <;> simp [h]

theorem getEnv_Setenv_other (env : Env) (key value k d : String) (hk : k ≠ key) :
    getEnv (Setenv env key value) k d = getEnv env k d := by
  simp [getEnv, Getenv_Setenv_other env key value k hk]

theorem getEnv_Setenv_same (env : Env) (key value d : String) :
    getEnv (Setenv env key value) key d = if value = "" then d else value := by
  rw [getEnv_eq_ite, Getenv_Setenv_same]

theorem Setenv_comm (e : Env) (k v k1 v1 : String) (h : k1 ≠ k) :
    Setenv (Setenv e k v) k1 v1 = Setenv (Setenv e k1 v1) k v := by
  funext x
  simp only [Setenv]
  by_cases hx : x = k1
  · subst hx; simp [h]
  · simp [hx]

theorem Setenv_idem (e : Env) (k v v1 : String) :
    Setenv (Setenv e k v1) k v = Setenv e k v := by
  funext x
  simp only [Setenv]
  by_cases hx : x = k <;> simp [hx]

/-- The fold of the `.env` step commutes with setting a variable beforehand: a variable
that was set in the process environment keeps its value, the others are treated alike. -/
theorem dotenv_fold_Setenv (env : Env) (k v : String) (l : List (String × String)) :
    ∀ e : Env,
      l.foldl (fun e kv => if ((Setenv env k v) kv.1).isSome then e else Setenv e kv.1 kv.2)
          (Setenv e k v)
        = Setenv (l.foldl (fun e kv => if (env kv.1).isSome then e else Setenv e kv.1 kv.2) e)
            k v := by
  induction l with
  | nil => intro e; rfl
  | cons kv l ih =>
    intro e
    simp only [List.foldl_cons]
    by_cases hk : kv.1 = k
    · have h1 : ((Setenv env k v) kv.1).isSome = true := by simp [Setenv, hk]
      rw [if_pos h1]
      by_cases h2 : (env kv.1).isSome = true
      · rw [if_pos h2]; exact ih e
      · rw [if_neg h2, ← ih (Setenv e kv.1 kv.2), hk, Setenv_idem]
    · have h1 : (Setenv env k v) kv.1 = env kv.1 := by simp [Setenv, hk]
      rw [h1]
      by_cases h2 : (env kv.1).isSome = true
      · rw [if_pos h2, if_pos h2]; exact ih e
      · rw [if_neg h2, if_neg h2, Setenv_comm e k v kv.1 kv.2 hk]
        exact ih (Setenv e kv.1 kv.2)

theorem godotenvLoad_Setenv (env : Env) (k v : String) (file : DotenvFile) :
    godotenvLoad (Setenv env k v) file = Setenv (godotenvLoad env file) k v := by
  cases file with
  | none => rfl
  | some envMap => exact dotenv_fold_Setenv env k v envMap env

/-- A variable that is set stays set through the fold of the `.env` step. -/
theorem dotenv_fold_isSome (s : Env) (l : List (String × String)) :
    ∀ (e : Env) (k : String), (e k).isSome = true →
      ((l.foldl (fun e kv => if (s kv.1).isSome then e else Setenv e kv.1 kv.2) e) k).isSome
        = true := by
  induction l with
  | nil => intro e k h; exact h
  | cons kv l ih =>
    intro e k h
    simp only [List.foldl_cons]
    apply ih
    by_cases h2 : (s kv.1).isSome = true
    · rw [if_pos h2]; exact h
    · rw [if_neg h2]
      simp only [Setenv]
      by_cases hx : k = kv.1 <;> simp [hx, h]

/-- After the `.env` step every variable of the file is set. -/
theorem dotenv_fold_covers (s : Env) (l : List (String × String)) :
    ∀ (e : Env), (∀ k, (s k).isSome = true → (e k).isSome = true) →
      ∀ kv ∈ l,
        ((l.foldl (fun e kv => if (s kv.1).isSome then e else Setenv e kv.1 kv.2) e)
          kv.1).isSome = true := by
  induction l with
  | nil => intro e _ kv hkv; cases hkv
  | cons hd l ih =>
    intro e hinv kv hkv
    simp only [List.foldl_cons]
    have hinv2 : ∀ k, (s k).isSome = true →
        ((if (s hd.1).isSome then e else Setenv e hd.1 hd.2) k).isSome = true := by
      intro k hk
      by_cases h2 : (s hd.1).isSome = true
      · rw [if_pos h2]; exact hinv k hk
      · rw [if_neg h2]
        simp only [Setenv]
        by_cases hx : k = hd.1 <;> simp [hx, hinv k hk]
    rcases List.mem_cons.mp hkv with rfl | hmem
    · apply dotenv_fold_isSome
      by_cases h2 : (s kv.1).isSome = true
      · rw [if_pos h2]; exact hinv _ h2
      · rw [if_neg h2]; simp [Setenv]
    · exact ih _ hinv2 kv hmem

/-- A fold of the `.env` step over variables that are all set changes nothing. -/
theorem dotenv_fold_noop (s : Env) (l : List (String × String))
    (h : ∀ kv ∈ l, (s kv.1).isSome = true) :
    ∀ e : Env,
      l.foldl (fun e kv => if (s kv.1).isSome then e else Setenv e kv.1 kv.2) e = e := by
  induction l with
  | nil => intro e; rfl
  | cons hd l ih =>
    intro e
    simp only [List.foldl_cons]
    rw [if_pos (h hd (List.mem_cons_self _ _))]
    exact ih (fun kv hkv => h kv (List.mem_cons_of_mem _ hkv)) e

/-- The `.env` step is idempotent on the environment. -/
theorem godotenvLoad_idem (env : Env) (file : DotenvFile) :
    godotenvLoad (godotenvLoad env file) file = godotenvLoad env file := by
  cases file with
  | none => rfl
  | some envMap =>
    simp only [godotenvLoad]
    apply dotenv_fold_noop
    intro kv hkv
    exact dotenv_fold_covers env envMap env (fun _ h => h) kv hkv

theorem Load_get (env : Env) (file : DotenvFile) (f : Field) :
    (Load env file).1.get f = getEnv (godotenvLoad env file) f.var f.default := by
  cases f <;> rfl

theorem Config_ext (a b : Config) (h : ∀ f : Field, a.get f = b.get f) : a = b := by
  obtain ⟨⟨a1, a2⟩, ⟨a3, a4, a5, a6, a7, a8⟩, ⟨a9, a10⟩⟩ := a
  obtain ⟨⟨b1, b2⟩, ⟨b3, b4, b5, b6, b7, b8⟩, ⟨b9, b10⟩⟩ := b
  have h1 := h .ServerPort
  have h2 := h .ServerHost
  have h3 := h .DatabaseHost
  have h4 := h .DatabasePort
  have h5 := h .DatabaseUser
  have h6 := h .DatabasePassword
  have h7 := h .DatabaseName
  have h8 := h .DatabaseCharset
  have h9 := h .GitHubToken
  have h10 := h .GitHubWebhookURL
  simp only [Config.get] at h1 h2 h3 h4 h5 h6 h7 h8 h9 h10
  subst h1 h2 h3 h4 h5 h6 h7 h8 h9 h10
  rfl

theorem Field_var_injective (f g : Field) (h : f.var = g.var) : f = g := by
  cases f <;> cases g <;> first | rfl | (exact absurd h (by decide))

theorem Field_var_ne_PORT (f : Field) : f.var ≠ "PORT" := by
  cases f <;> decide

/-- C1: `getEnv` returns the default when the variable is absent or set to the empty
string and the value of the variable, unchanged, otherwise; each field of the `Config` that
`Load` produces is the value of its own variable, in the environment that the `.env` step
leaves (the process environment itself when there is no file), when that value is not
empty, whatever the string is, and its fixed default otherwise. -/
theorem getEnv_Load_contract (env : Env) (file : DotenvFile) (key defaultValue : String)
    (f : Field) :
    ((env key = none ∨ env key = some "") → getEnv env key defaultValue = defaultValue) ∧
    (∀ v, env key = some v → v ≠ "" → getEnv env key defaultValue = v) ∧
    (((Load env file).2 f.var = none ∨ (Load env file).2 f.var = some "") →
      (Load env file).1.get f = f.default) ∧
    (∀ v, (Load env file).2 f.var = some v → v ≠ "" → (Load env file).1.get f = v) ∧
    (Load env none).2 = env := by
  have key1 : ∀ (e : Env) (k d : String), (e k = none ∨ e k = some "") → getEnv e k d = d := by
    intro e k d h
    rcases h with h | h <;> simp [getEnv, Getenv, h]
  have key2 : ∀ (e : Env) (k d v : String), e k = some v → v ≠ "" → getEnv e k d = v := by
    intro e k d v h hv
    simp [getEnv, Getenv, h, hv]
  refine ⟨key1 env key defaultValue, fun v => key2 env key defaultValue v, ?_, ?_, rfl⟩
  · intro h
    rw [Load_get]
    exact key1 _ _ _ h
  · intro v h hv
    rw [Load_get]
    exact key2 _ _ _ v h hv

/-- C1, at a concrete input: a port that is not a number is accepted as it is. -/
theorem getEnv_Load_contract_witness :
    (Load (Setenv emptyEnv "SERVER_PORT" "eighty") none).1.get .ServerPort = "eighty" ∧
    getEnv (Setenv emptyEnv "SERVER_PORT" "") "SERVER_PORT" "8080" = "8080" :=
  ⟨(getEnv_Load_contract (Setenv emptyEnv "SERVER_PORT" "eighty") none "SERVER_PORT" "8080"
      .ServerPort).2.2.2.1 "eighty" (by simp [Load, godotenvLoad, Setenv, Field.var])
      (by decide),
   (getEnv_Load_contract (Setenv emptyEnv "SERVER_PORT" "") none "SERVER_PORT" "8080"
      .ServerPort).1 (Or.inr (by simp [Setenv]))⟩

/-- C2: with no environment variable set, and a `.env` file that is missing or empty,
`Load` returns every documented default verbatim. -/
theorem Load_defaults :
    (Load emptyEnv none).1 =
      { Server := { Port := "8080", Host := "localhost" },
        Database := { Host := "localhost", Port := "3306", User := "root", Password := "",
                      Name := "workflow", Charset := "utf8mb4" },
        GitHub := { Token := "", WebhookURL := "" } } ∧
    (Load emptyEnv (some [])).1 = (Load emptyEnv none).1 := by
  constructor
  · simp [Load, godotenvLoad, getEnv, Getenv, emptyEnv]
  · rfl

/-- C3, as stated, fails: setting `DB_HOST` to the empty string leaves `Database.Host` at
its default `"localhost"`, not at the value set; and setting `PORT` changes no field of the
`Config` at all, no field becomes the value set. -/
theorem Load_override_counterexample :
    (Load (Setenv emptyEnv "DB_HOST" "") none).1.Database.Host = "localhost" ∧
    (Load (Setenv emptyEnv "DB_HOST" "") none).1.Database.Host ≠ "" ∧
    (Load (Setenv emptyEnv "PORT" "9090") none).1 = (Load emptyEnv none).1 ∧
    (∀ f : Field, (Load (Setenv emptyEnv "PORT" "9090") none).1.get f ≠ "9090") := by
  refine ⟨?_, ?_, ?_, ?_⟩
  · simp [Load, godotenvLoad, getEnv, Getenv, Setenv, emptyEnv]
  · simp [Load, godotenvLoad, getEnv, Getenv, Setenv, emptyEnv]
  · simp [Load, godotenvLoad, getEnv, Getenv, Setenv, emptyEnv]
  · intro f
    cases f <;> simp [Load, godotenvLoad, getEnv, Getenv, Setenv, emptyEnv, Config.get]

/-- C3, amended: for each of the ten variables that `Load` reads, setting it to a value
makes its own field that value when the value is not empty and the default of the field
when it is empty, and leaves every other field as `Load` returned it before; setting
`PORT` leaves the whole `Config` unchanged. -/
theorem Load_override_frame (env : Env) (file : DotenvFile) (f : Field) (v : String) :
    (Load (Setenv env f.var v) file).1.get f = (if v = "" then f.default else v) ∧
    (∀ g : Field, g ≠ f →
      (Load (Setenv env f.var v) file).1.get g = (Load env file).1.get g) ∧
    (Load (Setenv env "PORT" v) file).1 = (Load env file).1 := by
  refine ⟨?_, ?_, ?_⟩
  · rw [Load_get, godotenvLoad_Setenv, getEnv_Setenv_same]
  · intro g hg
    rw [Load_get, Load_get, godotenvLoad_Setenv]
    exact getEnv_Setenv_other _ _ _ _ _ (fun h => hg (Field_var_injective g f h))
  · apply Config_ext
    intro g
    rw [Load_get, Load_get, godotenvLoad_Setenv]
    exact getEnv_Setenv_other _ _ _ _ _ (Field_var_ne_PORT g)

/-- C4: `Load` is idempotent. A second call, made in the environment that the first call
left and with the same `.env` file, returns the same `Config` and leaves the same
environment; a missing file raises no error and leaves the environment as it was. -/
theorem Load_idempotent (env : Env) (file : DotenvFile) :
    (Load (Load env file).2 file).1 = (Load env file).1 ∧
    (Load (Load env file).2 file).2 = (Load env file).2 ∧
    (Load env none).2 = env := by
  have h : godotenvLoad (Load env file).2 file = godotenvLoad env file :=
    godotenvLoad_idem env file
  refine ⟨?_, h, rfl⟩
  apply Config_ext
  intro f
  rw [Load_get, Load_get, h]

end config

/-! ## Properties of the handlers -/

namespace handlers

/-- C5: when the structural decode of the request fails, `CreateTask` and `UpdateTask`
(decode of a `Task`), `CreateRepository` and `UpdateRepository` (decode of a `Repository`)
return the HTTP error 400 "Invalid request body", and so no success envelope. -/
theorem bind_failure_is_400 (c : Context) :
    (∀ e, c.BindTask = .error e →
      NewTaskHandler.CreateTask c
        = .error { code := 400, message := "Invalid request body" } ∧
      NewTaskHandler.UpdateTask c
        = .error { code := 400, message := "Invalid request body" } ∧
      (∀ resp, NewTaskHandler.CreateTask c ≠ .ok resp) ∧
      (∀ resp, NewTaskHandler.UpdateTask c ≠ .ok resp)) ∧
    (∀ e, c.BindRepository = .error e →
      NewRepositoryHandler.CreateRepository c
        = .error { code := 400, message := "Invalid request body" } ∧
      NewRepositoryHandler.UpdateRepository c
        = .error { code := 400, message := "Invalid request body" } ∧
      (∀ resp, NewRepositoryHandler.CreateRepository c ≠ .ok resp) ∧
      (∀ resp, NewRepositoryHandler.UpdateRepository c ≠ .ok resp)) := by
  constructor
  · intro e he
    simp [TaskHandler.CreateTask, TaskHandler.UpdateTask, he, StatusBadRequest]
  · intro e he
    simp [RepositoryHandler.CreateRepository, RepositoryHandler.UpdateRepository, he,
      StatusBadRequest]

/-- C5, at a request whose body does not decode. -/
theorem bind_failure_is_400_witness :
    NewTaskHandler.CreateTask badContext
      = .error { code := 400, message := "Invalid request body" } ∧
    NewRepositoryHandler.UpdateRepository badContext
      = .error { code := 400, message := "Invalid request body" } :=
  ⟨((bind_failure_is_400 badContext).1 "invalid character" rfl).1,
   ((bind_failure_is_400 badContext).2 "invalid character" rfl).2.1⟩

/-- C6: when the request decodes, `CreateTask` answers 201 with a `task_id` member and
`CreateRepository` answers 201 with a `repository_id` member; in both the `status` member
is "success", and the response is the same whatever was decoded. -/
theorem create_success_is_201 (c : Context) :
    (∀ t, c.BindTask = .ok t →
      (∃ resp, NewTaskHandler.CreateTask c = .ok resp ∧ resp.code = 201 ∧
        resp.body.hasField "task_id" = true ∧
        resp.body.get? "status" = some (.str "success")) ∧
      (∀ (c2 : Context) (t2 : Task), c2.BindTask = .ok t2 →
        NewTaskHandler.CreateTask c2 = NewTaskHandler.CreateTask c)) ∧
    (∀ r, c.BindRepository = .ok r →
      (∃ resp, NewRepositoryHandler.CreateRepository c = .ok resp ∧ resp.code = 201 ∧
        resp.body.hasField "repository_id" = true ∧
        resp.body.get? "status" = some (.str "success")) ∧
      (∀ (c2 : Context) (r2 : Repository), c2.BindRepository = .ok r2 →
        NewRepositoryHandler.CreateRepository c2
          = NewRepositoryHandler.CreateRepository c)) := by
  constructor
  · intro t ht
    constructor
    · simp only [TaskHandler.CreateTask, ht]
      exact ⟨_, rfl, rfl, rfl, rfl⟩
    · intro c2 t2 h2
      simp only [TaskHandler.CreateTask, ht, h2]
  · intro r hr
    constructor
    · simp only [RepositoryHandler.CreateRepository, hr]
      exact ⟨_, rfl, rfl, rfl, rfl⟩
    · intro c2 r2 h2
      simp only [RepositoryHandler.CreateRepository, hr, h2]

/-- C6, at a request whose body decodes. -/
theorem create_success_is_201_witness :
    (∃ resp, NewTaskHandler.CreateTask goodContext = .ok resp ∧ resp.code = 201 ∧
      resp.body.hasField "task_id" = true ∧
      resp.body.get? "status" = some (.str "success")) ∧
    (∃ resp, NewRepositoryHandler.CreateRepository goodContext = .ok resp ∧
      resp.code = 201 ∧ resp.body.hasField "repository_id" = true ∧
      resp.body.get? "status" = some (.str "success")) :=
  ⟨((create_success_is_201 goodContext).1 sampleTask rfl).1,
   ((create_success_is_201 goodContext).2 sampleRepository rfl).1⟩

/-- C7: `GetTasks` answers 200 with a `tasks` array of length 2 and `GetRepositories`
answers 200 with a `repositories` array of length 2; in each response `total` is the
length of that array. -/
theorem list_handlers_return_two (c : Context) :
    (∃ resp items, NewTaskHandler.GetTasks c = .ok resp ∧ resp.code = 200 ∧
      resp.body.get? "tasks" = some (.arr items) ∧ items.length = 2 ∧
      resp.body.get? "total" = some (.num items.length)) ∧
    (∃ resp items, NewRepositoryHandler.GetRepositories c = .ok resp ∧ resp.code = 200 ∧
      resp.body.get? "repositories" = some (.arr items) ∧ items.length = 2 ∧
      resp.body.get? "total" = some (.num items.length)) := by
  constructor
  · exact ⟨_, _, rfl, rfl, rfl, rfl, rfl⟩
  · exact ⟨_, _, rfl, rfl, rfl, rfl, rfl⟩

end handlers

/-! ## Properties of the route table -/

namespace routes

/-- The sixteen bindings of `SetupRoutes`, one by one, with their full paths: a property
of all of them holds of every binding of the table. -/
theorem mem_SetupRoutes (P : Route → Prop) (r : Route) (hr : r ∈ SetupRoutes)
    (h0 : P ⟨"GET", "/api/v1/health", fun rt c => handlers.NewHealthHandler.HealthCheck rt c⟩)
    (h1 : P ⟨"GET", "/api/v1/ping", fun _ _ =>
      .ok { code := StatusOK,
            body := .obj [("message", .str "pong"), ("status", .str "OK")] }⟩)
    (h2 : P ⟨"GET", "/api/v1/tasks", fun _ c => handlers.NewTaskHandler.GetTasks c⟩)
    (h3 : P ⟨"GET", "/api/v1/tasks/:id", fun _ c => handlers.NewTaskHandler.GetTask c⟩)
    (h4 : P ⟨"POST", "/api/v1/tasks", fun _ c => handlers.NewTaskHandler.CreateTask c⟩)
    (h5 : P ⟨"PUT", "/api/v1/tasks/:id", fun _ c => handlers.NewTaskHandler.UpdateTask c⟩)
    (h6 : P ⟨"DELETE", "/api/v1/tasks/:id", fun _ c => handlers.NewTaskHandler.DeleteTask c⟩)
    (h7 : P ⟨"GET", "/api/v1/repositories", fun _ c => handlers.NewRepositoryHandler.GetRepositories c⟩)
    (h8 : P ⟨"GET", "/api/v1/repositories/:id", fun _ c => handlers.NewRepositoryHandler.GetRepository c⟩)
    (h9 : P ⟨"POST", "/api/v1/repositories", fun _ c => handlers.NewRepositoryHandler.CreateRepository c⟩)
    (h10 : P ⟨"PUT", "/api/v1/repositories/:id", fun _ c => handlers.NewRepositoryHandler.UpdateRepository c⟩)
    (h11 : P ⟨"DELETE", "/api/v1/repositories/:id", fun _ c => handlers.NewRepositoryHandler.DeleteRepository c⟩)
    (h12 : P ⟨"POST", "/api/v1/github/webhook", fun _ _ =>
      .ok { code := StatusOK,
            body := .obj [("message", .str "GitHub webhook received"),
                          ("status", .str "OK")] }⟩)
    (h13 : P ⟨"GET", "/api/v1/github/repos", fun _ _ =>
      .ok { code := StatusOK,
            body := .obj [("message", .str "GitHub repositories"), ("repos", .arr [])] }⟩)
    (h14 : P ⟨"GET", "/api/v1/workflows", fun _ _ =>
      .ok { code := StatusOK,
            body := .obj [("message", .str "Workflows list"), ("workflows", .arr [])] }⟩)
    (h15 : P ⟨"POST", "/api/v1/workflows", fun _ _ =>
      .ok { code := StatusCreated,
            body := .obj [("message", .str "Workflow created"), ("status", .str "OK")] }⟩) :
    P r := by
  simp only [SetupRoutes, List.mem_cons, List.mem_singleton, List.not_mem_nil, or_false] at hr
  rcases hr with rfl | rfl | rfl | rfl | rfl | rfl | rfl | rfl | rfl | rfl | rfl | rfl | rfl |
    rfl | rfl | rfl
  · exact h0
  · exact h1
  · exact h2
  · exact h3
  · exact h4
  · exact h5
  · exact h6
  · exact h7
  · exact h8
  · exact h9
  · exact h10
  · exact h11
  · exact h12
  · exact h13
  · exact h14
  · exact h15

/-- Twelve of the sixteen bindings decode nothing. -/
theorem count_decode_nothing :
    (SetupRoutes.filter fun r => decodes r.method r.path = .nothing).length = 12 := by
  decide

/-- C8, as stated, fails: the handler bound to `GET /api/v1/github/repos` answers 200
with the envelope `message` plus `repos`, which has no `status` member. -/
theorem envelope_status_counterexample :
    ∃ r ∈ SetupRoutes, ∃ resp,
      r.method = "GET" ∧ r.path = "/api/v1/github/repos" ∧
      r.handler sampleRuntime goodContext = .ok resp ∧
      resp.body.hasField "status" = false :=
  ⟨SetupRoutes.get ⟨13, by decide⟩, List.get_mem _ _ _, _, rfl, by decide, rfl, rfl⟩

/-- C8, amended: every successful response of a handler bound by `SetupRoutes` is a JSON
envelope that carries mock data or an acknowledgement message; it has a `status` member
for every binding except `GET /api/v1/github/repos` and `GET /api/v1/workflows`, whose
envelopes are a `message` with an empty list and no `status`. -/
theorem envelope_shape (r : Route) (hr : r ∈ SetupRoutes) (rt : Runtime) (c : Context)
    (resp : Response) (hok : r.handler rt c = .ok resp) :
    hasPayload resp.body = true ∧
    resp.body.hasField "status" = !statusless r ∧
    (statusless r = true → resp.body.hasField "message" = true ∧
      (resp.body.get? "repos" = some (.arr []) ∨
        resp.body.get? "workflows" = some (.arr []))) := by
  revert hok
  refine mem_SetupRoutes
    (fun r => r.handler rt c = .ok resp →
      hasPayload resp.body = true ∧
      resp.body.hasField "status" = !statusless r ∧
      (statusless r = true → resp.body.hasField "message" = true ∧
        (resp.body.get? "repos" = some (.arr []) ∨
          resp.body.get? "workflows" = some (.arr []))))
    r hr ?_ ?_ ?_ ?_ ?_ ?_ ?_ ?_ ?_ ?_ ?_ ?_ ?_ ?_ ?_ ?_
  all_goals intro hok
  all_goals first
    | (have h := Except.ok.inj hok
       subst h
       first
         | exact ⟨rfl, rfl, fun h => absurd h (by decide)⟩
         | exact ⟨rfl, rfl, fun _ => ⟨rfl, Or.inl rfl⟩⟩
         | exact ⟨rfl, rfl, fun _ => ⟨rfl, Or.inr rfl⟩⟩)
    | (cases hb : c.BindTask with
       | error e =>
         simp [handlers.TaskHandler.CreateTask, handlers.TaskHandler.UpdateTask, hb] at hok
       | ok t =>
         simp only [handlers.TaskHandler.CreateTask, handlers.TaskHandler.UpdateTask, hb]
           at hok
         have h := Except.ok.inj hok
         subst h
         exact ⟨rfl, rfl, fun h => absurd h (by decide)⟩)
    | (cases hb : c.BindRepository with
       | error e =>
         simp [handlers.RepositoryHandler.CreateRepository,
           handlers.RepositoryHandler.UpdateRepository, hb] at hok
       | ok t =>
         simp only [handlers.RepositoryHandler.CreateRepository,
           handlers.RepositoryHandler.UpdateRepository, hb] at hok
         have h := Except.ok.inj hok
         subst h
         exact ⟨rfl, rfl, fun h => absurd h (by decide)⟩)

/-- C8, amended, at the binding `GET /api/v1/ping`. -/
theorem envelope_shape_witness :
    hasPayload (JSON.obj [("message", .str "pong"), ("status", .str "OK")]) = true ∧
    (JSON.obj [("message", .str "pong"), ("status", .str "OK")]).hasField "status" = true :=
  have h := envelope_shape (SetupRoutes.get ⟨1, by decide⟩) (List.get_mem _ _ _)
    sampleRuntime goodContext
    { code := 200, body := .obj [("message", .str "pong"), ("status", .str "OK")] } rfl
  ⟨h.1, h.2.1⟩

/-- C9: a request to a handler bound by `SetupRoutes` ends in an error exactly when the
handler decodes the request and that decode fails, and the error is then the 400 "Invalid
request body"; in every other case the handler answers with a 2xx status. The twelve
handlers that decode nothing succeed for every request and every path parameter, and
their answer does not depend on what a decode would give. -/
theorem errors_only_from_decode (r : Route) (hr : r ∈ SetupRoutes) (rt : Runtime)
    (c : Context) :
    ((∃ e, r.handler rt c = .error e) ↔ decodeFails r c = true) ∧
    (∀ e, r.handler rt c = .error e →
      e = { code := 400, message := "Invalid request body" }) ∧
    (decodeFails r c = false → succeeds2xx (r.handler rt c) = true) ∧
    (decodes r.method r.path = .nothing →
      succeeds2xx (r.handler rt c) = true ∧
      ∀ bt br, r.handler rt { c with BindTask := bt, BindRepository := br }
        = r.handler rt c) ∧
    (SetupRoutes.filter fun r => decodes r.method r.path = .nothing).length = 12 := by
  refine mem_SetupRoutes
    (fun r =>
      ((∃ e, r.handler rt c = .error e) ↔ decodeFails r c = true) ∧
      (∀ e, r.handler rt c = .error e →
        e = { code := 400, message := "Invalid request body" }) ∧
      (decodeFails r c = false → succeeds2xx (r.handler rt c) = true) ∧
      (decodes r.method r.path = .nothing →
        succeeds2xx (r.handler rt c) = true ∧
        ∀ bt br, r.handler rt { c with BindTask := bt, BindRepository := br }
          = r.handler rt c) ∧
      (SetupRoutes.filter fun r => decodes r.method r.path = .nothing).length = 12)
    r hr ?_ ?_ ?_ ?_ ?_ ?_ ?_ ?_ ?_ ?_ ?_ ?_ ?_ ?_ ?_ ?_
  all_goals beta_reduce
  all_goals refine ⟨?_, ?_, ?_, ?_, count_decode_nothing⟩
  all_goals first
    | exact ⟨fun ⟨_, he⟩ => Except.noConfusion he, fun h => absurd h Bool.false_ne_true⟩
    | exact fun _ he => Except.noConfusion he
    | exact fun _ => rfl
    | exact fun _ => ⟨rfl, fun _ _ => rfl⟩
    | (cases hb : c.BindTask <;> cases hb2 : c.BindRepository <;>
        simp [decodeFails, decodes, bindFailed, succeeds2xx, hb, hb2, StatusBadRequest,
          StatusOK, StatusCreated, handlers.TaskHandler.CreateTask,
          handlers.TaskHandler.UpdateTask, handlers.RepositoryHandler.CreateRepository,
          handlers.RepositoryHandler.UpdateRepository])

/-- C9, at `POST /api/v1/tasks` with a body that does not decode, and at
`DELETE /api/v1/tasks/:id` with the same request. -/
theorem errors_only_from_decode_witness :
    (∃ e, handlers.NewTaskHandler.CreateTask badContext = .error e) ∧
    succeeds2xx (handlers.NewTaskHandler.DeleteTask badContext) = true :=
  ⟨(errors_only_from_decode (SetupRoutes.get ⟨4, by decide⟩) (List.get_mem _ _ _)
      sampleRuntime badContext).1.2 rfl,
   (errors_only_from_decode (SetupRoutes.get ⟨6, by decide⟩) (List.get_mem _ _ _)
      sampleRuntime badContext).2.2.1 rfl⟩

/-- C10: for every request and every runtime state, `HealthCheck` answers 200 with a body
whose `status` member is "OK", and it is the handler that `SetupRoutes` binds to
`GET /api/v1/health`. -/
theorem health_is_200_OK (rt : Runtime) (c : Context) :
    ∃ resp, handlers.NewHealthHandler.HealthCheck rt c = .ok resp ∧
      resp.code = 200 ∧
      resp.body.get? "status" = some (.str "OK") ∧
      (lookup "GET" "/api/v1/health").map (fun h => h rt c) = some (.ok resp) :=
  ⟨_, rfl, rfl, rfl, rfl⟩

end routes

/-! ## Properties of the server entry point -/

namespace server

/-- C11: the port that the server binds follows the precedence `PORT`, then
`SERVER_PORT`, then "8080", the variables being read in the environment that the `.env`
step leaves (the process environment itself when there is no file); the address handed to
`e.Start` is ":" followed by that port; and when `PORT` is not empty, setting
`SERVER_PORT` to any value has no effect on the bound port. -/
theorem bound_port_precedence (env : Env) (file : DotenvFile) :
    (main env file).1 =
      (if Getenv (config.Load env file).2 "PORT" ≠ "" then
        Getenv (config.Load env file).2 "PORT"
      else if Getenv (config.Load env file).2 "SERVER_PORT" ≠ "" then
        Getenv (config.Load env file).2 "SERVER_PORT"
      else "8080") ∧
    (main env file).2 = ":" ++ (main env file).1 ∧
    (config.Load env none).2 = env ∧
    (Getenv (config.Load env file).2 "PORT" ≠ "" →
      ∀ v, main (Setenv env "SERVER_PORT" v) file = main env file) := by
  refine ⟨?_, rfl, rfl, ?_⟩
  · simp only [main, config.Load, config.getEnv]
    by_cases h : Getenv (godotenvLoad env file) "PORT" = "" <;> simp [h]
  · intro h v
    have hp : Getenv (godotenvLoad (Setenv env "SERVER_PORT" v) file) "PORT"
        = Getenv (godotenvLoad env file) "PORT" := by
      rw [config.godotenvLoad_Setenv]
      exact config.Getenv_Setenv_other _ _ _ _ (by decide)
    have h1 : Getenv (godotenvLoad env file) "PORT" ≠ "" := h
    simp only [main, config.Load, hp, if_neg h1]

/-- C11, at concrete environments: `PORT` wins over `SERVER_PORT`, `SERVER_PORT` is used
when `PORT` is empty, and changing `SERVER_PORT` under a set `PORT` changes nothing. -/
theorem bound_port_precedence_witness :
    (main (Setenv (Setenv emptyEnv "SERVER_PORT" "9000") "PORT" "3000") none).1 = "3000" ∧
    (main (Setenv (Setenv emptyEnv "SERVER_PORT" "9000") "PORT" "") none).1 = "9000" ∧
    main (Setenv (Setenv emptyEnv "PORT" "3000") "SERVER_PORT" "9000") none
      = main (Setenv emptyEnv "PORT" "3000") none :=
  ⟨(bound_port_precedence (Setenv (Setenv emptyEnv "SERVER_PORT" "9000") "PORT" "3000")
      none).1.trans (by decide),
   (bound_port_precedence (Setenv (Setenv emptyEnv "SERVER_PORT" "9000") "PORT" "")
      none).1.trans (by decide),
   (bound_port_precedence (Setenv emptyEnv "PORT" "3000") none).2.2.2 (by decide) "9000"⟩

end server

end Workflow
